import Mathlib

/-!
Verification of the iv-ingestion ingestion core
===============================================

A shallow embedding, in Lean 4, of the parts of the `iv-ingestion`
repository that the specification's claims are about:

* the field-extraction logic of the file-processing worker
  (`src/workers/processor.js`): the JavaScript regular-expression patterns
  are embedded via a small backtracking regex interpreter with the exact
  JS semantics used there (leftmost match, ordered alternation, greedy
  quantifiers, optional ignore-case), and the extraction functions
  (`extractPropertyInfo`, `extractInspectorInfo`, `extractFindings`) are
  translated pattern-for-pattern;
* the webhook dispatch engine (`src/services/webhookService.js`):
  registration validation and the bounded retry loop of `deliverWebhook`;
* the sliding-window rate limiter (`RateLimiter` middleware): the pure
  per-request admission step over the Redis sorted-set state, and an
  error-oracle model of the middleware's fail-open behaviour;
* the `processing_jobs` schema of migration
  `004_create_processing_jobs_table.js`;
* the transactional persistence step `saveProcessedData`.

External collaborators (Redis, the HTTP stack, the Bull queue library,
knex transactions, text-extraction libraries) appear as explicit oracles
or as documented library contracts; each such point is flagged in the
corresponding doc comment.
-/

set_option maxRecDepth 8000

/-! ## A small JS-style regex interpreter

`processor.js` drives its extraction with JavaScript regex literals.  The
constructors below cover exactly the features those literals use:
character classes, ordered alternation (first alternative wins), greedy
`*`/`+`/`?`/`{m,n}`, non-capturing groups (plain sequencing) and numbered
capture groups.  Matching is backtracking, leftmost-first, as in JS.
-/

inductive RE where
  | eps : RE
  | cls : (Char → Bool) → RE
  | seq : RE → RE → RE
  | alt : RE → RE → RE
  | star : RE → RE
  | grp : Nat → RE → RE

/-- A character class that matches nothing (used as the unit of ordered
alternation over a list of alternatives). -/
def REfail : RE := RE.cls (fun _ => false)

def RE.plus (r : RE) : RE := RE.seq r (RE.star r)

def RE.opt (r : RE) : RE := RE.alt r RE.eps

/-- A case-sensitive literal character. -/
def chr (c : Char) : RE := RE.cls (fun x => x = c)

/-- A literal character under the JS `i` flag: both cases match. -/
def chri (c : Char) : RE := RE.cls (fun x => x.toLower = c.toLower)

def lit (s : String) : RE := s.data.foldr (fun c r => RE.seq (chr c) r) RE.eps

def liti (s : String) : RE := s.data.foldr (fun c r => RE.seq (chri c) r) RE.eps

/-- Ordered alternation `a|b|...` (first alternative wins, as in JS). -/
def altList (rs : List RE) : RE := rs.foldr RE.alt REfail

def seqList (rs : List RE) : RE := rs.foldr RE.seq RE.eps

/-- `r{n}` -/
def repN (n : Nat) (r : RE) : RE := seqList (List.replicate n r)

/-- greedy `r{0,n}` -/
def repUpTo : Nat → RE → RE
  | 0, _ => RE.eps
  | n + 1, r => RE.opt (RE.seq r (repUpTo n r))

/-- greedy `r{lo,hi}` -/
def repRange (lo hi : Nat) (r : RE) : RE := RE.seq (repN lo r) (repUpTo (hi - lo) r)

/-- greedy `r{lo,}` restricted to `lo ≥ 1` uses: `r{2,}` is `r r r*`. -/
def repAtLeast (lo : Nat) (r : RE) : RE := RE.seq (repN lo r) (RE.star r)

/-- Captured groups of a match: group number paired with the captured text. -/
abbrev Caps := List (Nat × List Char)

/-- The backtracking matcher, in continuation-passing style.  `fuel` bounds
the depth of the backtracking derivation (each constructor unfolding costs
one unit); all uses below supply ample fuel for the concrete inputs
evaluated.  The `star` case refuses to iterate on an empty match, exactly
like the JS engine's empty-loop guard. -/
def reMat : Nat → RE → List Char → Caps →
    (List Char → Caps → Option (List Char × Caps)) → Option (List Char × Caps)
  | 0, _, _, _, _ => none
  | _ + 1, RE.eps, l, cp, k => k l cp
  | _ + 1, RE.cls p, l, cp, k =>
    match l with
    | [] => none
    | c :: l' => if p c then k l' cp else none
  | f + 1, RE.seq a b, l, cp, k => reMat f a l cp (fun l' cp' => reMat f b l' cp' k)
  | f + 1, RE.alt a b, l, cp, k =>
    match reMat f a l cp k with
    | some r => some r
    | none => reMat f b l cp k
  | f + 1, RE.star r, l, cp, k =>
    match reMat f r l cp
        (fun l' cp' => if l'.length < l.length then reMat f (RE.star r) l' cp' k else none) with
    | some res => some res
    | none => k l cp
  | f + 1, RE.grp n r, l, cp, k =>
    reMat f r l cp (fun l' cp' => k l' (cp' ++ [(n, l.take (l.length - l'.length))]))

/-- Fuel used for every concrete regex evaluation in this file. -/
def reFuel : Nat := 4000

/-- Try to match `re` at the start of `l`; returns the matched length and
captures. -/
def reTryAt (re : RE) (l : List Char) : Option (Nat × Caps) :=
  match reMat reFuel re l [] (fun rest cp => some (rest, cp)) with
  | some (rest, cp) => some (l.length - rest.length, cp)
  | none => none

/-- Leftmost match: scan start positions left to right (JS `exec` on a
pattern without `y`/anchors).  Returns the input suffix at the match
start, the match length and the captures. -/
def reSearch (re : RE) : List Char → Option (List Char × Nat × Caps)
  | [] =>
    match reTryAt re [] with
    | some (len, cp) => some ([], len, cp)
    | none => none
  | c :: l' =>
    match reTryAt re (c :: l') with
    | some (len, cp) => some (c :: l', len, cp)
    | none => reSearch re l'

/-- The text of the first (leftmost) match: JS `String.match[0]` for both
global and non-global patterns. -/
def reFirstText (re : RE) (l : List Char) : Option (List Char) :=
  (reSearch re l).map (fun r => r.1.take r.2.1)

/-- First-match captures: JS non-global `String.match`; group `n` is
`match[n]`. -/
def reFirstCaps (re : RE) (l : List Char) : Option Caps :=
  (reSearch re l).map (fun r => r.2.2)

def capGet (cp : Caps) (n : Nat) : Option (List Char) :=
  (cp.find? (fun p => p.1 = n)).map (fun p => p.2)

/-- All matches, resuming after each match end (JS `matchAll`; a
zero-length match advances by one character, as `lastIndex` does). -/
def reAll (re : RE) : Nat → List Char → List (List Char × Caps)
  | 0, _ => []
  | n + 1, l =>
    match reSearch re l with
    | none => []
    | some (suf, len, cp) =>
      let text := suf.take len
      let rest := if len = 0 then suf.drop 1 else suf.drop len
      (text, cp) :: reAll re n rest

/-! ## String helpers mirroring the JS string operations used -/

/-- JS `String.prototype.trim` (on the whitespace alphabet occurring in
the embedded inputs). -/
def trimList (l : List Char) : List Char :=
  ((l.dropWhile Char.isWhitespace).reverse.dropWhile Char.isWhitespace).reverse

def listToStr (l : List Char) : String := String.mk l

/-- JS `String.prototype.toLowerCase` (ASCII). -/
def lowerStr (s : String) : String := String.mk (s.data.map Char.toLower)

def listPrefixOf : List Char → List Char → Bool
  | [], _ => true
  | _ :: _, [] => false
  | a :: as, b :: bs => (a = b) && listPrefixOf as bs

def listInfixOf (sub : List Char) : List Char → Bool
  | [] => listPrefixOf sub []
  | c :: l => listPrefixOf sub (c :: l) || listInfixOf sub l

/-- JS `String.prototype.includes`. -/
def strIncludes (hay sub : String) : Bool := listInfixOf sub.data hay.data

/-- JS `parseInt` on a string of decimal digits. -/
def digitsToNat (l : List Char) : Nat :=
  l.foldl (fun n c => n * 10 + (c.toNat - '0'.toNat)) 0

/-! ## Character classes of the processor.js patterns

Each named class below embeds one bracket expression of a pattern in
`src/workers/processor.js`; for patterns carrying the JS `i` flag the
class is written already closed under case (that is what the flag does to
a bracket expression). -/

/-- `\d` -/
def clsDigit : Char → Bool := Char.isDigit

/-- `\s` (JS whitespace, restricted to the ASCII whitespace appearing in
the embedded inputs). -/
def clsWS : Char → Bool := Char.isWhitespace

/-- `[A-Za-z\s]` -/
def clsAlphaWS (c : Char) : Bool := c.isAlpha || c.isWhitespace

/-- `[,\s]` -/
def clsCommaWS (c : Char) : Bool := c = ',' || c.isWhitespace

/-- `[A-Z]` in a pattern without the `i` flag. -/
def clsUpper : Char → Bool := Char.isUpper

/-- `[A-Z]` / `[a-z]` under the `i` flag: any ASCII letter. -/
def clsAlphaI (c : Char) : Bool := c.isAlpha

/-- `[A-Z0-9-]` under the `i` flag. -/
def clsLicense (c : Char) : Bool := c.isAlpha || c.isDigit || c = '-'

/-- `[A-Za-z\s&]` -/
def clsAlphaWSAmp (c : Char) : Bool := c.isAlpha || c.isWhitespace || c = '&'

/-- `[^.\n]` -/
def clsNotDotNL (c : Char) : Bool := !(c = '.' || c = '\n')

/-- `[-.\s]` -/
def clsPhoneSep (c : Char) : Bool := c = '-' || c = '.' || c.isWhitespace

/-- `[a-zA-Z0-9._%+-]` -/
def clsEmailLocal (c : Char) : Bool :=
  c.isAlpha || c.isDigit || c = '.' || c = '_' || c = '%' || c = '+' || c = '-'

/-- `[a-zA-Z0-9.-]` -/
def clsEmailDomain (c : Char) : Bool := c.isAlpha || c.isDigit || c = '.' || c = '-'

/-- `[\/\-]` -/
def clsSlashDash (c : Char) : Bool := c = '/' || c = '-'

/-! ## The extraction patterns of processor.js -/

/-- The street-suffix alternation
`(?:Street|St|Avenue|Ave|Road|Rd|Boulevard|Blvd|Drive|Dr|Lane|Ln|Court|Ct|Place|Pl|Way|Circle|Cir)`
(under the `i` flag), in source order. -/
def streetSuffixRe : RE :=
  altList [liti "Street", liti "St", liti "Avenue", liti "Ave", liti "Road", liti "Rd",
    liti "Boulevard", liti "Blvd", liti "Drive", liti "Dr", liti "Lane", liti "Ln",
    liti "Court", liti "Ct", liti "Place", liti "Pl", liti "Way", liti "Circle", liti "Cir"]

/-- `/(\d+\s+[A-Za-z\s]+(?:Street|...|Cir))/gi` — first address pattern. -/
def addressPattern1 : RE :=
  RE.grp 1 (seqList [RE.plus (RE.cls clsDigit), RE.plus (RE.cls clsWS),
    RE.plus (RE.cls clsAlphaWS), streetSuffixRe])

/-- `/(\d+\s+[A-Za-z\s]+(?:Street|...|Cir)[,\s]+[A-Za-z\s]+[,\s]+[A-Z]{2}[,\s]+\d{5})/gi`
— second address pattern (`[A-Z]{2}` is case-closed by the `i` flag). -/
def addressPattern2 : RE :=
  RE.grp 1 (seqList [RE.plus (RE.cls clsDigit), RE.plus (RE.cls clsWS),
    RE.plus (RE.cls clsAlphaWS), streetSuffixRe, RE.plus (RE.cls clsCommaWS),
    RE.plus (RE.cls clsAlphaWS), RE.plus (RE.cls clsCommaWS),
    repN 2 (RE.cls clsAlphaI), RE.plus (RE.cls clsCommaWS), repN 5 (RE.cls clsDigit)])

def addressPatterns : List RE := [addressPattern1, addressPattern2]

/-- `/([A-Za-z\s]+)[,\s]+([A-Z]{2})[,\s]+(\d{5})/` — no flags, so `[A-Z]`
is uppercase-only. -/
def cityStateZipPattern : RE :=
  seqList [RE.grp 1 (RE.plus (RE.cls clsAlphaWS)), RE.plus (RE.cls clsCommaWS),
    RE.grp 2 (repN 2 (RE.cls clsUpper)), RE.plus (RE.cls clsCommaWS),
    RE.grp 3 (repN 5 (RE.cls clsDigit))]

/-- `/(single\s+family|multi\s+family|condominium|townhouse|apartment|commercial|residential)/i` -/
def propertyTypePattern1 : RE :=
  RE.grp 1 (altList [
    seqList [liti "single", RE.plus (RE.cls clsWS), liti "family"],
    seqList [liti "multi", RE.plus (RE.cls clsWS), liti "family"],
    liti "condominium", liti "townhouse", liti "apartment", liti "commercial",
    liti "residential"])

/-- `/(house|home|condo|apartment|building|structure)/i` -/
def propertyTypePattern2 : RE :=
  RE.grp 1 (altList [liti "house", liti "home", liti "condo", liti "apartment",
    liti "building", liti "structure"])

def propertyTypePatterns : List RE := [propertyTypePattern1, propertyTypePattern2]

/-- `/(\d{1,3}(?:,\d{3})*)\s*(?:sq\s*ft|square\s*feet|sf)/i` -/
def sqftPattern : RE :=
  seqList [
    RE.grp 1 (RE.seq (repRange 1 3 (RE.cls clsDigit))
      (RE.star (RE.seq (chr ',') (repN 3 (RE.cls clsDigit))))),
    RE.star (RE.cls clsWS),
    altList [
      seqList [liti "sq", RE.star (RE.cls clsWS), liti "ft"],
      seqList [liti "square", RE.star (RE.cls clsWS), liti "feet"],
      liti "sf"]]

/-- `/(?:built|constructed|year)\s*(?:in\s*)?(\d{4})/i` -/
def yearPattern : RE :=
  seqList [altList [liti "built", liti "constructed", liti "year"],
    RE.star (RE.cls clsWS),
    RE.opt (RE.seq (liti "in") (RE.star (RE.cls clsWS))),
    RE.grp 1 (repN 4 (RE.cls clsDigit))]

/-- `/(\d+)\s*(?:bedroom|bed|br)/i` -/
def bedroomPattern : RE :=
  seqList [RE.grp 1 (RE.plus (RE.cls clsDigit)), RE.star (RE.cls clsWS),
    altList [liti "bedroom", liti "bed", liti "br"]]

/-- `/(\d+(?:\.\d+)?)\s*(?:bathroom|bath|ba)/i` -/
def bathroomPattern : RE :=
  seqList [RE.grp 1 (RE.seq (RE.plus (RE.cls clsDigit))
      (RE.opt (RE.seq (chr '.') (RE.plus (RE.cls clsDigit))))),
    RE.star (RE.cls clsWS),
    altList [liti "bathroom", liti "bath", liti "ba"]]

/-- `/(?:inspector|inspected\s+by|performed\s+by)\s*:?\s*([A-Za-z\s]+)/i` -/
def inspectorNamePattern1 : RE :=
  seqList [altList [liti "inspector",
      seqList [liti "inspected", RE.plus (RE.cls clsWS), liti "by"],
      seqList [liti "performed", RE.plus (RE.cls clsWS), liti "by"]],
    RE.star (RE.cls clsWS), RE.opt (chr ':'), RE.star (RE.cls clsWS),
    RE.grp 1 (RE.plus (RE.cls clsAlphaWS))]

/-- `/([A-Z][a-z]+\s+[A-Z][a-z]+)\s*(?:inspector|inspected)/i` — the `i`
flag closes `[A-Z]`/`[a-z]` over case. -/
def inspectorNamePattern2 : RE :=
  seqList [RE.grp 1 (seqList [RE.cls clsAlphaI, RE.plus (RE.cls clsAlphaI),
      RE.plus (RE.cls clsWS), RE.cls clsAlphaI, RE.plus (RE.cls clsAlphaI)]),
    RE.star (RE.cls clsWS),
    altList [liti "inspector", liti "inspected"]]

def inspectorNamePatterns : List RE := [inspectorNamePattern1, inspectorNamePattern2]

/-- `/(?:license|lic\s*#|license\s*number)\s*:?\s*([A-Z0-9-]+)/i` -/
def licensePattern1 : RE :=
  seqList [altList [liti "license",
      seqList [liti "lic", RE.star (RE.cls clsWS), chr '#'],
      seqList [liti "license", RE.star (RE.cls clsWS), liti "number"]],
    RE.star (RE.cls clsWS), RE.opt (chr ':'), RE.star (RE.cls clsWS),
    RE.grp 1 (RE.plus (RE.cls clsLicense))]

/-- `/([A-Z]{2,3}\d{6,8})/i` -/
def licensePattern2 : RE :=
  RE.grp 1 (RE.seq (repRange 2 3 (RE.cls clsAlphaI)) (repRange 6 8 (RE.cls clsDigit)))

def licensePatterns : List RE := [licensePattern1, licensePattern2]

/-- `/(?:company|firm|agency)\s*:?\s*([A-Za-z\s&]+)/i` -/
def companyPattern1 : RE :=
  seqList [altList [liti "company", liti "firm", liti "agency"],
    RE.star (RE.cls clsWS), RE.opt (chr ':'), RE.star (RE.cls clsWS),
    RE.grp 1 (RE.plus (RE.cls clsAlphaWSAmp))]

/-- `/([A-Z][a-z]+\s+(?:Inspections|Services|Company|Inc|LLC|Ltd))/i` -/
def companyPattern2 : RE :=
  RE.grp 1 (seqList [RE.cls clsAlphaI, RE.plus (RE.cls clsAlphaI),
    RE.plus (RE.cls clsWS),
    altList [liti "Inspections", liti "Services", liti "Company", liti "Inc",
      liti "LLC", liti "Ltd"]])

def companyPatterns : List RE := [companyPattern1, companyPattern2]

/-- `/(?:phone|tel|telephone)\s*:?\s*(\d{3}[-.\s]?\d{3}[-.\s]?\d{4})/i` -/
def phonePattern : RE :=
  seqList [altList [liti "phone", liti "tel", liti "telephone"],
    RE.star (RE.cls clsWS), RE.opt (chr ':'), RE.star (RE.cls clsWS),
    RE.grp 1 (seqList [repN 3 (RE.cls clsDigit), RE.opt (RE.cls clsPhoneSep),
      repN 3 (RE.cls clsDigit), RE.opt (RE.cls clsPhoneSep),
      repN 4 (RE.cls clsDigit)])]

/-- `/([a-zA-Z0-9._%+-]+@[a-zA-Z0-9.-]+\.[a-zA-Z]{2,})/i` -/
def emailPattern : RE :=
  RE.grp 1 (seqList [RE.plus (RE.cls clsEmailLocal), chr '@',
    RE.plus (RE.cls clsEmailDomain), chr '.', repAtLeast 2 (RE.cls clsAlphaI)])

/-- `\d{1,2}[\/\-]\d{1,2}[\/\-]\d{2,4}` — the date body shared by both
date patterns. -/
def dateBodyRe : RE :=
  seqList [repRange 1 2 (RE.cls clsDigit), RE.cls clsSlashDash,
    repRange 1 2 (RE.cls clsDigit), RE.cls clsSlashDash,
    repRange 2 4 (RE.cls clsDigit)]

/-- `/(?:inspection\s+date|date\s+of\s+inspection|inspected\s+on)\s*:?\s*(\d{1,2}[\/\-]\d{1,2}[\/\-]\d{2,4})/i` -/
def datePattern1 : RE :=
  seqList [altList [
      seqList [liti "inspection", RE.plus (RE.cls clsWS), liti "date"],
      seqList [liti "date", RE.plus (RE.cls clsWS), liti "of", RE.plus (RE.cls clsWS),
        liti "inspection"],
      seqList [liti "inspected", RE.plus (RE.cls clsWS), liti "on"]],
    RE.star (RE.cls clsWS), RE.opt (chr ':'), RE.star (RE.cls clsWS),
    RE.grp 1 dateBodyRe]

/-- `/(\d{1,2}[\/\-]\d{1,2}[\/\-]\d{2,4})/i` -/
def datePattern2 : RE := RE.grp 1 dateBodyRe

def datePatterns : List RE := [datePattern1, datePattern2]

/-- `/(?:finding|issue|problem|defect|deficiency)\s*:?\s*([^.\n]+)/gi` -/
def findingPattern1 : RE :=
  seqList [altList [liti "finding", liti "issue", liti "problem", liti "defect",
      liti "deficiency"],
    RE.star (RE.cls clsWS), RE.opt (chr ':'), RE.star (RE.cls clsWS),
    RE.grp 1 (RE.plus (RE.cls clsNotDotNL))]

/-- `/(?:recommendation|recommend)\s*:?\s*([^.\n]+)/gi` -/
def findingPattern2 : RE :=
  seqList [altList [liti "recommendation", liti "recommend"],
    RE.star (RE.cls clsWS), RE.opt (chr ':'), RE.star (RE.cls clsWS),
    RE.grp 1 (RE.plus (RE.cls clsNotDotNL))]

/-- `/(?:repair|fix|replace)\s*:?\s*([^.\n]+)/gi` -/
def findingPattern3 : RE :=
  seqList [altList [liti "repair", liti "fix", liti "replace"],
    RE.star (RE.cls clsWS), RE.opt (chr ':'), RE.star (RE.cls clsWS),
    RE.grp 1 (RE.plus (RE.cls clsNotDotNL))]

def findingPatterns : List RE := [findingPattern1, findingPattern2, findingPattern3]

/-! ## Extraction functions of processor.js -/

structure PropertyInfo where
  address : Option String
  city : Option String
  state : Option String
  zipCode : Option String
  propertyType : Option String
  squareFootage : Option Nat
  yearBuilt : Option Nat
  bedrooms : Option Nat
  bathrooms : Option String
  deriving Repr, DecidableEq

/-- `extractPropertyInfo` (processor.js 141-220).  Every field follows the
source: `address` is the trimmed full text of the first address pattern
that matches; `city`/`state`/`zipCode` come from groups 1-3 of the
city-state-zip pattern (group 1 trimmed); `propertyType` is group 1 of
the first property-type pattern that matches, lower-cased;
`squareFootage` is `parseInt` of group 1 with commas removed; `yearBuilt`
and `bedrooms` are `parseInt` of group 1.  `bathrooms` is kept as the
matched text (the source applies `parseFloat` to it; the numeric
conversion of that library call is not modelled, the matched digits
are). -/
def extractPropertyInfo (content : String) : PropertyInfo :=
  let cd := content.data
  let address :=
    (addressPatterns.findSome? (fun p => reFirstText p cd)).map
      (fun t => listToStr (trimList t))
  let csz := reFirstCaps cityStateZipPattern cd
  let city := (csz.bind (fun cp => capGet cp 1)).map (fun t => listToStr (trimList t))
  let state := (csz.bind (fun cp => capGet cp 2)).map listToStr
  let zipCode := (csz.bind (fun cp => capGet cp 3)).map listToStr
  let propertyType :=
    (propertyTypePatterns.findSome? (fun p => reFirstCaps p cd)).bind
      (fun cp => (capGet cp 1).map (fun t => lowerStr (listToStr t)))
  let squareFootage :=
    (reFirstCaps sqftPattern cd).bind
      (fun cp => (capGet cp 1).map (fun t => digitsToNat (t.filter (fun c => !(c = ',')))))
  let yearBuilt :=
    (reFirstCaps yearPattern cd).bind (fun cp => (capGet cp 1).map digitsToNat)
  let bedrooms :=
    (reFirstCaps bedroomPattern cd).bind (fun cp => (capGet cp 1).map digitsToNat)
  let bathrooms :=
    (reFirstCaps bathroomPattern cd).bind (fun cp => (capGet cp 1).map listToStr)
  { address := address, city := city, state := state, zipCode := zipCode,
    propertyType := propertyType, squareFootage := squareFootage,
    yearBuilt := yearBuilt, bedrooms := bedrooms, bathrooms := bathrooms }

structure InspectorInfo where
  name : Option String
  license : Option String
  company : Option String
  phone : Option String
  email : Option String
  inspectionDate : Option String
  deriving Repr, DecidableEq

/-- `extractInspectorInfo` (processor.js 225-306).  `inspectionDate` keeps
the raw matched date text; the source feeds that text through the
external `moment` library to re-serialize it as ISO-8601, which is not
modelled. -/
def extractInspectorInfo (content : String) : InspectorInfo :=
  let cd := content.data
  let pick := fun (ps : List RE) =>
    (ps.findSome? (fun p => reFirstCaps p cd)).bind
      (fun cp => (capGet cp 1).map (fun t => listToStr (trimList t)))
  let name := pick inspectorNamePatterns
  let license := pick licensePatterns
  let company := pick companyPatterns
  let phone :=
    (reFirstCaps phonePattern cd).bind (fun cp => (capGet cp 1).map listToStr)
  let email :=
    (reFirstCaps emailPattern cd).bind (fun cp => (capGet cp 1).map listToStr)
  let inspectionDate :=
    (datePatterns.findSome? (fun p => reFirstCaps p cd)).bind
      (fun cp => (capGet cp 1).map listToStr)
  { name := name, license := license, company := company, phone := phone,
    email := email, inspectionDate := inspectionDate }

structure Finding where
  id : Nat
  description : String
  severity : String
  category : String
  recommendation : Option String
  estimatedCost : Option Nat
  priority : String
  deriving Repr, DecidableEq

/-- The `severityKeywords` table of `extractFindings` (processor.js
335-339), in source order: entry insertion order is `high`, `medium`,
`low`, exactly as `Object.entries` iterates it. -/
def severityKeywords : List (String × List String) :=
  [("high", ["critical", "urgent", "safety", "hazard", "danger", "emergency", "immediate"]),
   ("medium", ["moderate", "attention", "concern", "issue", "problem"]),
   ("low", ["minor", "cosmetic", "maintenance", "suggestion", "recommendation"])]

/-- The `categoryKeywords` table (processor.js 349-357), in source order. -/
def categoryKeywords : List (String × List String) :=
  [("electrical", ["electrical", "wiring", "outlet", "circuit", "breaker", "panel"]),
   ("plumbing", ["plumbing", "pipe", "leak", "drain", "faucet", "toilet"]),
   ("structural", ["structural", "foundation", "wall", "roof", "beam", "support"]),
   ("hvac", ["hvac", "heating", "cooling", "furnace", "ac", "air conditioning"]),
   ("roofing", ["roof", "shingle", "gutter", "chimney", "flashing"]),
   ("exterior", ["exterior", "siding", "window", "door", "deck", "patio"]),
   ("interior", ["interior", "floor", "ceiling", "paint", "drywall"])]

/-- The classification loop of `extractFindings`: iterate the table in
order, take the first entry one of whose keywords occurs in the
lower-cased description, `break`; if no entry hits, the initial default
stands. -/
def firstKeywordHit (table : List (String × List String)) (dflt : String)
    (description : String) : String :=
  match table.find? (fun e => e.2.any (fun kw => strIncludes (lowerStr description) kw)) with
  | some e => e.1
  | none => dflt

/-- Severity assignment of `extractFindings` (default `'medium'`,
processor.js 327 and 334-347). -/
def classifySeverity (description : String) : String :=
  firstKeywordHit severityKeywords "medium" description

/-- Category assignment of `extractFindings` (default `'general'`,
processor.js 328 and 348-364). -/
def classifyCategory (description : String) : String :=
  firstKeywordHit categoryKeywords "general" description

/-- One finding record as `extractFindings` builds it.  The source fills
`id` with `uuidv4()`; the external UUID generator is modelled as the
finding's creation index. -/
def mkFinding (idx : Nat) (descRaw : List Char) : Finding :=
  let description := listToStr (trimList descRaw)
  { id := idx, description := description,
    severity := classifySeverity description,
    category := classifyCategory description,
    recommendation := none, estimatedCost := none, priority := "medium" }

/-- `extractFindings` (processor.js 311-371): for each of the three
finding patterns, in order, every match of the pattern over the whole
content contributes one finding built from capture group 1. -/
def extractFindings (content : String) : List Finding :=
  let cd := content.data
  let raw := (findingPatterns.map (fun p => reAll p (cd.length + 1) cd)).flatten
  raw.enum.map (fun m => mkFinding m.1 ((capGet m.2.2 1).getD []))

/-- The result of the extraction phase of `processFile` (processor.js
376-424): the `content` argument stands for the raw text produced by the
external parser library (`pdfParser` for a PDF), and the three structured
components are computed exactly as in the source. -/
structure ExtractResult where
  content : String
  propertyInfo : PropertyInfo
  inspectorInfo : InspectorInfo
  findings : List Finding
  deriving Repr, DecidableEq

def processFileExtract (content : String) : ExtractResult :=
  { content := content,
    propertyInfo := extractPropertyInfo content,
    inspectorInfo := extractInspectorInfo content,
    findings := extractFindings content }

/-- The canonical S1 raw text: a PDF text containing the three strings the
scenario prescribes, joined by line breaks. -/
def s1Content : String :=
  "Address: 123 Main St, Anytown, CA 90210\nInspector: Jane Smith, License NY789012\ncritical electrical hazard at main panel"

/-! ## Webhook dispatch (src/services/webhookService.js) -/

/-- `this.retryDelays` (webhookService.js 15), milliseconds. -/
def webhookRetryDelays : List Nat := [1000, 5000, 15000, 60000, 300000]

/-- `this.maxRetries` (webhookService.js 16). -/
def webhookMaxRetries : Nat := 5

/-- One HTTP delivery outcome: `some s` is a completed response with
status `s` (axios is configured with `validateStatus: () => true`, so any
completed response returns normally); `none` is a transport error or
timeout (the `catch` branch). -/
def isSuccessStatus : Option Nat → Bool
  | some s => 200 ≤ s && s < 300
  | none => false

/-- `scheduleRetry`'s delay (webhookService.js 245-251):
`retryDelays[Math.min(attempt - 1, retryDelays.length - 1)]`. -/
def scheduleRetryDelay (attempt : Nat) : Nat :=
  webhookRetryDelays.getD (min (attempt - 1) (webhookRetryDelays.length - 1)) 0

/-- The attempt indices performed by the `deliverWebhook` /
`scheduleRetry` recursion (webhookService.js 158-251), given the
per-attempt outcome oracle `resp`: attempt `a` (0-based, as in the source,
where the initial call passes `attempt = 0`) succeeds and stops, or fails
and — exactly when `a < maxRetries` — schedules attempt `a + 1`.  The
fuel argument only bounds the recursion depth; `webhookMaxRetries + 1`
is never exhausted because `a` grows by 1 per step and recursion requires
`a < webhookMaxRetries`. -/
def deliveryAttemptsFrom (resp : Nat → Option Nat) : Nat → Nat → List Nat
  | 0, a => [a]
  | fuel + 1, a =>
    if isSuccessStatus (resp a) then [a]
    else if a < webhookMaxRetries then a :: deliveryAttemptsFrom resp fuel (a + 1)
    else [a]

/-- All delivery attempts for one (event, subscription) pair. -/
def deliveryAttempts (resp : Nat → Option Nat) : List Nat :=
  deliveryAttemptsFrom resp (webhookMaxRetries + 1) 0

/-- `webhook.deliveryStats` as one delivery run updates it: `total` grows
on every attempt, `successful` on a 2xx response, `failed` on every other
outcome (webhookService.js 186-225). -/
structure DeliveryStats where
  total : Nat
  successful : Nat
  failed : Nat
  deriving Repr, DecidableEq

def deliveryRunStats (resp : Nat → Option Nat) : DeliveryStats :=
  let as := deliveryAttempts resp
  let s := as.countP (fun a => isSuccessStatus (resp a))
  { total := as.length, successful := s, failed := as.length - s }

structure WebhookSub where
  id : Nat
  url : String
  events : List String
  description : String
  userId : Nat
  secret : String
  isActive : Bool
  deriving Repr, DecidableEq

/-- JS `String.prototype.startsWith`. -/
def strStartsWith (s p : String) : Bool := listPrefixOf p.data s.data

/-- `isValidUrl` (webhookService.js 331-338): `new URL(url)` must not
throw — whether the URL constructor of the host platform parses the
string is supplied as the oracle `urlParses` — and the string must start
with `http://` or `https://`. -/
def isValidUrl (urlParses : String → Bool) (url : String) : Bool :=
  urlParses url && (strStartsWith url "http://" || strStartsWith url "https://")

structure WebhookState where
  webhooks : List (Nat × WebhookSub)
  deriving Repr, DecidableEq

/-- `registerWebhook` (webhookService.js 26-70), with the generated id and
secret passed explicitly (the source draws them from `crypto` randomness).
A thrown error is modelled as `Except.error` carrying the thrown message,
and the webhook map is returned alongside; the typed embedding renders
the `!Array.isArray(events) || events.length === 0` check as the list
being empty. -/
def registerWebhook (urlParses : String → Bool) (st : WebhookState)
    (newId : Nat) (secret : String) (url : String) (events : List String)
    (description : String) (userId : Nat) :
    WebhookState × Except String WebhookSub :=
  if !(isValidUrl urlParses url) then (st, .error "Invalid webhook URL")
  else if events.length = 0 then (st, .error "At least one event must be specified")
  else
    let wh : WebhookSub :=
      { id := newId, url := url, events := events, description := description,
        userId := userId, secret := secret, isActive := true }
    ({ webhooks := st.webhooks ++ [(newId, wh)] }, .ok wh)

/-! ## Bull queue options for file-processing jobs (processor.js 43, 56-66) -/

structure BackoffOpts where
  type : String
  delay : Nat
  deriving Repr, DecidableEq

structure JobOpts where
  removeOnComplete : Nat
  removeOnFail : Nat
  attempts : Nat
  backoff : BackoffOpts
  deriving Repr, DecidableEq

/-- `defaultJobOptions` of the `file-processing` Bull queue
(processor.js 56-66), with `attempts: MAX_RETRIES` where
`MAX_RETRIES = 3` (processor.js 43). -/
def fileProcessingJobOptions : JobOpts :=
  { removeOnComplete := 100, removeOnFail := 50, attempts := 3,
    backoff := { type := "exponential", delay := 2000 } }

/-- Modelled from the classic Bull library contract (`processor.js`
imports `bull`; the queue library is an external dependency and the
repository only passes it the options above): the built-in
`'exponential'` strategy computes `Math.round((2^attemptsMade - 1) *
delay)` milliseconds, so the k-th retry (k ≥ 1, bull's `attemptsMade`)
waits `(2^k - 1) * delay` — 1·delay, 3·delay, 7·delay, … (the rounding
is the identity on these integer products); `'fixed'` waits `delay`. -/
def bullBackoffDelay (b : BackoffOpts) (k : Nat) : Nat :=
  if b.type = "exponential" then (2 ^ k - 1) * b.delay else b.delay

/-- The job retry-delay schedule as the specification's words state it
(spec-side definition, written from the spec text for comparison, not
from the source): base delays 1 s, 5 s, 15 s, 60 s, 300 s; retry k uses
entry min(k−1, 4). -/
def specJobRetryBase (k : Nat) : Nat :=
  [1000, 5000, 15000, 60000, 300000].getD (min (k - 1) 4) 0

/-! ## Sliding-window rate limiter (RateLimiter middleware)

The Redis sorted set behind a rate-limit key is embedded as a list of
scores.  `zadd(key, now, now.toString())` keys the member by the decimal
string of the timestamp, so the member is determined by the score: two
admissions in the same millisecond collapse to a single entry, which the
embedding reproduces.  Each middleware invocation reads `Date.now()`
several times; the embedding uses one timestamp per request (the calls
happen within the same handler invocation). -/

inductive Tier where
  | free
  | pro
  | enterprise
  deriving Repr, DecidableEq

structure TierConfig where
  requests : Nat
  window : Nat
  files : Nat
  fileWindow : Nat
  deriving Repr, DecidableEq

/-- `this.tiers` (RateLimiter constructor): windows in seconds. -/
def tiers : Tier → TierConfig
  | .free => { requests := 100, window := 15 * 60, files := 10, fileWindow := 24 * 60 * 60 }
  | .pro => { requests := 1000, window := 15 * 60, files := 100, fileWindow := 24 * 60 * 60 }
  | .enterprise => { requests := 10000, window := 15 * 60, files := 1000, fileWindow := 24 * 60 * 60 }

/-- `this.tiers[name]` as the string-keyed lookup the middleware performs. -/
def tierByName : String → Option TierConfig
  | "free" => some (tiers .free)
  | "pro" => some (tiers .pro)
  | "enterprise" => some (tiers .enterprise)
  | _ => none

/-- The four admission buckets the middlewares guard: `api` and `files`
use the tier's quotas; `webhook` is 100 per hour and `admin` 1000 per
15 minutes for every tier (the respective middleware functions). -/
inductive Bucket where
  | api
  | files
  | webhook
  | admin
  deriving Repr, DecidableEq

def bucketLimit (tr : Tier) : Bucket → Nat
  | .api => (tiers tr).requests
  | .files => (tiers tr).files
  | .webhook => 100
  | .admin => 1000

/-- Bucket window in seconds. -/
def bucketWindow (tr : Tier) : Bucket → Nat
  | .api => (tiers tr).window
  | .files => (tiers tr).fileWindow
  | .webhook => 60 * 60
  | .admin => 15 * 60

/-- `zadd key now now.toString()`: sorted-set member keyed by the decimal
string of `now`, hence set semantics on the timestamp. -/
def zaddEntry (s : List Int) (t : Int) : List Int :=
  if t ∈ s then s else s ++ [t]

/-- `zremrangebyscore(key, '-inf', windowStart)` inside `recordRequest`:
drop entries with score ≤ now − window·1000 (the range bound is
inclusive). -/
def rlTrim (s : List Int) (t : Int) (w : Nat) : List Int :=
  s.filter (fun e => decide (t - (w : Int) * 1000 < e))

/-- The entry count of `getRateLimitInfo`:
`zrangebyscore(key, windowStart, '+inf')` counts entries with score ≥
now − window·1000 (inclusive). -/
def rlCount (s : List Int) (t : Int) (w : Nat) : Nat :=
  (s.filter (fun e => decide (t - (w : Int) * 1000 ≤ e))).length

/-- `getRateLimitInfo` (part_015 63-79): the reset it reports is
`now + window·1000` — the query time plus the window. -/
structure RLInfo where
  count : Nat
  reset : Int
  deriving Repr, DecidableEq

def getRateLimitInfo (s : List Int) (t : Int) (w : Nat) : RLInfo :=
  { count := rlCount s t w, reset := t + (w : Int) * 1000 }

/-- `isAllowed` (part_015 84-87). -/
def rlIsAllowed (s : List Int) (limit w : Nat) (t : Int) : Bool :=
  (getRateLimitInfo s t w).count < limit

/-- `recordRequest` (part_015 92-104): `zadd` the current timestamp, then
trim entries outside the window.  (The `expire` TTL only removes keys
idle for a full window, whose entries the trim/count discard anyway; it
is not modelled.) -/
def recordRequest (s : List Int) (t : Int) (w : Nat) : List Int :=
  rlTrim (zaddEntry s t) t w

/-- `getRemaining` (part_015 109-112): `Math.max(0, limit - count)`. -/
def getRemaining (s : List Int) (limit w : Nat) (t : Int) : Int :=
  max 0 ((limit : Int) - (rlCount s t w : Int))

structure RLDetails where
  limit : Nat
  remaining : Int
  reset : Int
  deriving Repr, DecidableEq

inductive RLOutcome where
  | allowedNext (headers : RLDetails)
  | denied (status : Nat) (code : String) (details : RLDetails) (retryAfter : Nat)
  deriving Repr, DecidableEq

/-- One invocation of the main rate-limiting middleware (part_015
137-196) on the failure-free path, as a pure state transformer: check
`isAllowed`; when allowed, `recordRequest` and answer with headers
computed on the updated state; when denied, answer 429 with
`RATE_LIMIT_EXCEEDED`, `remaining = max(0, limit - count)`,
`reset = now + window·1000` and `Retry-After = ceil(window / 60)`. -/
def middlewareStep (limit w : Nat) (s : List Int) (t : Int) : List Int × RLOutcome :=
  if rlIsAllowed s limit w t then
    let s' := recordRequest s t w
    (s', .allowedNext
      { limit := limit, remaining := getRemaining s' limit w t,
        reset := (getRateLimitInfo s' t w).reset })
  else
    (s, .denied 429 "RATE_LIMIT_EXCEEDED"
      { limit := limit, remaining := getRemaining s limit w t,
        reset := (getRateLimitInfo s t w).reset }
      ((w + 59) / 60))

/-- The middleware outcomes of a sequence of requests on one bucket key,
processed in order from the empty key. -/
def middlewareTrace (limit w : Nat) (s : List Int) : List Int → List RLOutcome
  | [] => []
  | t :: ts =>
    match middlewareStep limit w s t with
    | (s', o) => o :: middlewareTrace limit w s' ts

/-- Sequential admission processing, tracking the sorted-set state and the
timestamps of the admitted requests. -/
def rlProcessList (limit w : Nat) (s adm : List Int) : List Int → List Int × List Int
  | [] => (s, adm)
  | t :: ts =>
    if rlIsAllowed s limit w t then rlProcessList limit w (recordRequest s t w) (adm ++ [t]) ts
    else rlProcessList limit w s adm ts

def rlRun (limit w : Nat) (ts : List Int) : List Int × List Int :=
  rlProcessList limit w [] [] ts

/-- Number of entries of `A` inside the closed window `[x − w·1000, x]`. -/
def windowCount (w : Nat) (A : List Int) (x : Int) : Nat :=
  (A.filter (fun y => decide (x - (w : Int) * 1000 ≤ y) && decide (y ≤ x))).length

/-! ## Fail-open behaviour of the rate-limiting middlewares

Every Redis operation a middleware invocation performs can reject; the
oracle below fixes one result per call site of one invocation.  The
middleware body runs in `Except`, and the `try/catch` wrapped around the
whole handler turns any error into a plain `next()` — the request
proceeds. -/

structure RedisIOModel where
  getTier : Except Unit (Option String)
  zrangeAllowed : Except Unit (List Int)
  zadd : Except Unit Unit
  zrem : Except Unit Unit
  expire : Except Unit Unit
  zrangeRemaining : Except Unit (List Int)
  zrangeInfo : Except Unit (List Int)

inductive MwResult where
  | nextWithHeaders (limit : Nat) (remaining : Int) (reset : Int)
  | nextNoHeaders
  | denied (status : Nat) (code : String)
  deriving Repr, DecidableEq

/-- `getUserTier` (part_015 37-47): no user id gives `'free'`; a Redis
error is caught locally and gives `'free'`; a missing key (`tier ||
'free'`) gives `'free'`. -/
def getUserTierModel (userId : Option Nat) (r : RedisIOModel) : String :=
  match userId with
  | none => "free"
  | some _ =>
    match r.getTier with
    | .error _ => "free"
    | .ok none => "free"
    | .ok (some t) => t

/-- The body of `middleware()` (part_015 137-196) before its `catch`.
`this.tiers[userTier]` being `undefined` makes the subsequent property
access throw, which the model renders as an error.  In the denied branch
`getRemaining` and `getRateLimitInfo` each query Redis again and can
throw; the denial is only delivered if they succeed. -/
def middlewareBody (r : RedisIOModel) (userId : Option Nat) (now : Int) :
    Except Unit MwResult :=
  match tierByName (getUserTierModel userId r) with
  | none => Except.error ()
  | some cfg =>
    match r.zrangeAllowed with
    | Except.error e => Except.error e
    | Except.ok entries =>
      if entries.length < cfg.requests then
        match r.zadd, r.zrem, r.expire with
        | Except.ok _, Except.ok _, Except.ok _ =>
          match r.zrangeRemaining, r.zrangeInfo with
          | Except.ok rem, Except.ok _ =>
            Except.ok (.nextWithHeaders cfg.requests
              (max 0 ((cfg.requests : Int) - (rem.length : Int)))
              (now + (cfg.window : Int) * 1000))
          | Except.error e, _ => Except.error e
          | _, Except.error e => Except.error e
        | Except.error e, _, _ => Except.error e
        | _, Except.error e, _ => Except.error e
        | _, _, Except.error e => Except.error e
      else
        match r.zrangeRemaining, r.zrangeInfo with
        | Except.ok _, Except.ok _ => Except.ok (.denied 429 "RATE_LIMIT_EXCEEDED")
        | Except.error e, _ => Except.error e
        | _, Except.error e => Except.error e

/-- `middleware()` with its outer `try/catch`: any error lets the request
proceed (`next()` without rate-limit headers). -/
def middlewareModel (r : RedisIOModel) (userId : Option Nat) (now : Int) : MwResult :=
  match middlewareBody r userId now with
  | .ok res => res
  | .error _ => .nextNoHeaders

/-- The body of `fileUploadMiddleware()` (part_015 201-242): same shape
over the `files` quota and window; the allowed path calls `next()`
without headers. -/
def fileUploadBody (r : RedisIOModel) (userId : Option Nat) : Except Unit MwResult :=
  match tierByName (getUserTierModel userId r) with
  | none => Except.error ()
  | some cfg =>
    match r.zrangeAllowed with
    | Except.error e => Except.error e
    | Except.ok entries =>
      if entries.length < cfg.files then
        match r.zadd, r.zrem, r.expire with
        | Except.ok _, Except.ok _, Except.ok _ => Except.ok .nextNoHeaders
        | Except.error e, _, _ => Except.error e
        | _, Except.error e, _ => Except.error e
        | _, _, Except.error e => Except.error e
      else
        match r.zrangeRemaining, r.zrangeInfo with
        | Except.ok _, Except.ok _ => Except.ok (.denied 429 "FILE_LIMIT_EXCEEDED")
        | Except.error e, _ => Except.error e
        | _, Except.error e => Except.error e

/-- `fileUploadMiddleware()` with its outer `try/catch` (part_015
237-241): any error lets the upload proceed. -/
def fileUploadModel (r : RedisIOModel) (userId : Option Nat) : MwResult :=
  match fileUploadBody r userId with
  | .ok res => res
  | .error _ => .nextNoHeaders

/-! ## The processing_jobs schema (migrations/004_create_processing_jobs_table.js) -/

/-- The `status` enum of the `processing_jobs` table, in migration order:
`['queued', 'active', 'completed', 'failed', 'delayed']`. -/
def processingJobStatuses : List String :=
  ["queued", "active", "completed", "failed", "delayed"]

/-- One `processing_jobs` row, restricted to the columns the claims are
about.  `progress` and `attempts`/`max_attempts` are unsigned integers. -/
structure ProcessingJobRow where
  status : String
  priority : Int
  progress : Nat
  attempts : Nat
  maxAttempts : Nat
  deriving Repr, DecidableEq

/-- The row constraints the migration declares: `status` must lie in the
enum, and the check constraint `progress >= 0 AND progress <= 100`. -/
def validProcessingJob (r : ProcessingJobRow) : Bool :=
  processingJobStatuses.contains r.status && r.progress ≤ 100

/-- The migration's column defaults: status `'queued'`, priority 0,
progress 0, attempts 0, max_attempts 3. -/
def defaultProcessingJob : ProcessingJobRow :=
  { status := "queued", priority := 0, progress := 0, attempts := 0, maxAttempts := 3 }

/-! ## Transactional persistence: saveProcessedData (processor.js 429-521)

The knex transaction object is embedded by threading a draft copy of the
store through the four write operations; `trx.commit` makes the draft the
new store, and any failing operation takes the `trx.rollback` path, which
leaves the store exactly as it was (that rollback semantics is the knex
library contract; the repository's contribution, which the embedding
translates, is that all four writes run inside the one transaction and
that the error is rethrown after rollback).  Row ids generated by the
database (`gen_random_uuid()` / `returning('id')`) are modelled as the
next index of the table. -/

structure PropertyRow where
  id : Nat
  address : String
  city : Option String
  state : Option String
  zipCode : Option String
  propertyType : Option String
  squareFootage : Option Nat
  yearBuilt : Option Nat
  bedrooms : Option Nat
  bathrooms : Option String
  deriving Repr, DecidableEq

structure InspectionRow where
  id : Nat
  fileId : Nat
  userId : Nat
  propertyId : Option Nat
  inspectorName : Option String
  inspectorLicense : Option String
  inspectorCompany : Option String
  inspectorPhone : Option String
  inspectorEmail : Option String
  inspectionDate : Option String
  status : String
  rawContent : String
  deriving Repr, DecidableEq

structure FindingRow where
  inspectionId : Nat
  description : String
  severity : String
  category : String
  recommendation : Option String
  estimatedCost : Option Nat
  priority : String
  deriving Repr, DecidableEq

/-- A `files` row, restricted to the columns `saveProcessedData` touches
(the update also stamps `processedAt`/`updatedAt`, not modelled). -/
structure FileRow where
  id : Nat
  status : String
  deriving Repr, DecidableEq

structure Store where
  properties : List PropertyRow
  inspections : List InspectionRow
  findings : List FindingRow
  files : List FileRow
  deriving Repr, DecidableEq

/-- Which of the four transactional operations fail (each flag models the
corresponding awaited database call rejecting). -/
structure TrxFailure where
  propertyInsert : Bool
  inspectionInsert : Bool
  findingsInsert : Bool
  fileUpdate : Bool
  deriving Repr, DecidableEq

def noTrxFailure : TrxFailure :=
  { propertyInsert := false, inspectionInsert := false,
    findingsInsert := false, fileUpdate := false }

structure SaveResult where
  inspectionId : Nat
  propertyId : Option Nat
  findingsCount : Nat
  deriving Repr, DecidableEq

def findingRowOf (inspId : Nat) (f : Finding) : FindingRow :=
  { inspectionId := inspId, description := f.description, severity := f.severity,
    category := f.category, recommendation := f.recommendation,
    estimatedCost := f.estimatedCost, priority := f.priority }

/-- The phase of `saveProcessedData` after the optional property insert:
inspection insert, findings insert (skipped when there are no findings),
file-status update, then commit; any failure rolls back to `orig`. -/
def savePhase2 (fail : TrxFailure) (orig draft : Store) (propertyId : Option Nat)
    (fileId userId : Nat) (pd : ExtractResult) : Store × Option SaveResult :=
  if fail.inspectionInsert then (orig, none)
  else
    let ii := pd.inspectorInfo
    let inspId := draft.inspections.length
    let inspRow : InspectionRow :=
      { id := inspId, fileId := fileId, userId := userId, propertyId := propertyId,
        inspectorName := ii.name, inspectorLicense := ii.license,
        inspectorCompany := ii.company, inspectorPhone := ii.phone,
        inspectorEmail := ii.email, inspectionDate := ii.inspectionDate,
        status := "completed", rawContent := pd.content }
    let draft2 := { draft with inspections := draft.inspections ++ [inspRow] }
    if 0 < pd.findings.length && fail.findingsInsert then (orig, none)
    else
      let draft3 :=
        { draft2 with findings := draft2.findings ++ pd.findings.map (findingRowOf inspId) }
      if fail.fileUpdate then (orig, none)
      else
        let files' :=
          draft3.files.map (fun f => if f.id = fileId then { f with status := "processed" } else f)
        let res : SaveResult :=
          { inspectionId := inspId, propertyId := propertyId,
            findingsCount := pd.findings.length }
        ({ draft3 with files := files' }, some res)

/-- `saveProcessedData` (processor.js 429-521): the property row is
inserted only when an address was extracted, then `savePhase2` finishes
the transaction. -/
def saveProcessedData (fail : TrxFailure) (st : Store) (fileId userId : Nat)
    (pd : ExtractResult) : Store × Option SaveResult :=
  let pInfo := pd.propertyInfo
  match pInfo.address with
  | some addr =>
    if fail.propertyInsert then (st, none)
    else
      let pid := st.properties.length
      let pRow : PropertyRow :=
        { id := pid, address := addr, city := pInfo.city, state := pInfo.state,
          zipCode := pInfo.zipCode, propertyType := pInfo.propertyType,
          squareFootage := pInfo.squareFootage, yearBuilt := pInfo.yearBuilt,
          bedrooms := pInfo.bedrooms, bathrooms := pInfo.bathrooms }
      savePhase2 fail st { st with properties := st.properties ++ [pRow] }
        (some pid) fileId userId pd
  | none => savePhase2 fail st st none fileId userId pd

/-! ## Spec-side definitions used only for comparison

These two definitions are written from the specification's words (not
from the source) so that refutation theorems can compare the code's
behaviour against them. -/

/-- The severity table exactly as the specification states it:
critical/urgent/hazard/danger/emergency/immediate → `critical`,
moderate/concern/issue/problem/attention → `major`,
minor/cosmetic/maintenance/suggestion → `minor`, otherwise
`informational` (first hit wins). -/
def specSeverityTable : List (String × List String) :=
  [("critical", ["critical", "urgent", "hazard", "danger", "emergency", "immediate"]),
   ("major", ["moderate", "concern", "issue", "problem", "attention"]),
   ("minor", ["minor", "cosmetic", "maintenance", "suggestion"])]

def specClassifySeverity (description : String) : String :=
  firstKeywordHit specSeverityTable "informational" description

/-- The job states exactly as claim C5 lists them. -/
def claimJobStates : List String :=
  ["queued", "active", "completed", "failed", "dead"]

/-- A Redis oracle every one of whose operations rejects: the backend is
unavailable. -/
def failingRedis : RedisIOModel :=
  { getTier := Except.error (), zrangeAllowed := Except.error (),
    zadd := Except.error (), zrem := Except.error (), expire := Except.error (),
    zrangeRemaining := Except.error (), zrangeInfo := Except.error () }

/-! # Theorems -/

/-! ## Helper lemmas -/

theorem deliveryAttemptsFrom_eq_range (resp : Nat → Option Nat) :
    ∀ (f a : Nat), deliveryAttemptsFrom resp f a =
      List.range' a (deliveryAttemptsFrom resp f a).length := by
  intro f
  induction f with
  | zero => intro a; simp [deliveryAttemptsFrom, List.range']
  | succ f ih =>
    intro a
    by_cases hs : isSuccessStatus (resp a) = true
    · simp [deliveryAttemptsFrom, hs, List.range']
    · by_cases hlt : a < webhookMaxRetries
      · simp only [deliveryAttemptsFrom, hs, if_false, hlt, if_true, List.length_cons,
          List.range'_succ, Bool.false_eq_true]
        exact List.cons_eq_cons.mpr ⟨rfl, ih (a + 1)⟩
      · simp [deliveryAttemptsFrom, hs, hlt, List.range']

theorem deliveryAttemptsFrom_length_le (resp : Nat → Option Nat) :
    ∀ (f a : Nat), a ≤ webhookMaxRetries →
      (deliveryAttemptsFrom resp f a).length ≤ webhookMaxRetries + 1 - a := by
  intro f
  induction f with
  | zero => intro a ha; simp only [deliveryAttemptsFrom, List.length_singleton]; omega
  | succ f ih =>
    intro a ha
    by_cases hs : isSuccessStatus (resp a) = true
    · simp only [deliveryAttemptsFrom, hs, if_true, List.length_singleton]; omega
    · by_cases hlt : a < webhookMaxRetries
      · have hrec := ih (a + 1) (by omega)
        simp only [deliveryAttemptsFrom, hs, hlt, if_true, if_false, List.length_cons,
          Bool.false_eq_true]
        omega
      · simp only [deliveryAttemptsFrom, hs, hlt, if_false, List.length_singleton,
          Bool.false_eq_true]
        omega

/-! ## C2 — webhook delivery retries -/

/-- Claim C2 (counterexample): an endpoint that always answers HTTP 500
receives SIX delivery attempts (`X-Webhook-Attempt` 1..6), not at most
five: `deliverWebhook` starts at `attempt = 0` and retries whenever
`attempt < maxRetries = 5`, so the initial attempt plus five retries are
performed. -/
theorem webhook_six_attempts_on_persistent_500 :
    deliveryAttempts (fun _ => some 500) = [0, 1, 2, 3, 4, 5] ∧
    deliveryRunStats (fun _ => some 500) =
      { total := 6, successful := 0, failed := 6 } ∧
    ¬ ((deliveryAttempts (fun _ => some 500)).length ≤ 5) := by
  refine ⟨by decide, by decide, by decide⟩

/-- Claim C2 (amended): every delivery whose HTTP status is outside
[200, 300), or that fails in transport, schedules a retry while fewer
than 5 retries have happened; the k-th retry (k = 1..5) is delayed by
`retryDelays[min(k−1, 4)]`, i.e. 1 s, 5 s, 15 s, 60 s, 300 s; in total at
most 6 attempts (the initial attempt plus 5 retries) are made per
(event, subscription), numbered consecutively from 0, and the final
failed attempt increments the failure counter without scheduling
another. -/
theorem webhook_retry_schedule :
    (∀ resp : Nat → Option Nat,
      deliveryAttempts resp = List.range (deliveryAttempts resp).length ∧
      (deliveryAttempts resp).length ≤ 6) ∧
    scheduleRetryDelay 1 = 1000 ∧ scheduleRetryDelay 2 = 5000 ∧
    scheduleRetryDelay 3 = 15000 ∧ scheduleRetryDelay 4 = 60000 ∧
    scheduleRetryDelay 5 = 300000 := by
  refine ⟨fun resp => ⟨?_, ?_⟩, by decide, by decide, by decide, by decide, by decide⟩
  · have h := deliveryAttemptsFrom_eq_range resp (webhookMaxRetries + 1) 0
    simpa [deliveryAttempts, List.range_eq_range'] using h
  · have h := deliveryAttemptsFrom_length_le resp (webhookMaxRetries + 1) 0 (by decide)
    simpa [deliveryAttempts, webhookMaxRetries] using h

/-! ## C6 — job retry back-off -/

/-- Claim C6 (counterexample): the claimed schedule puts the delay before
attempt 2 (the first retry) at base 1000 ms plus a uniform jitter in
[0, 20 %] of the base — at most 1200 ms.  The `file-processing` queue is
configured with classic Bull exponential back-off on a 2000 ms base, so
the first retry waits (2^1 − 1)·2000 = 2000 ms, outside the claimed
band; no jitter is configured at all. -/
theorem job_backoff_counterexample :
    bullBackoffDelay fileProcessingJobOptions.backoff 1 = 2000 ∧
    specJobRetryBase 1 = 1000 ∧
    ¬ (bullBackoffDelay fileProcessingJobOptions.backoff 1 ≤
        specJobRetryBase 1 + specJobRetryBase 1 / 5) := by
  refine ⟨by decide, by decide, by decide⟩

/-- Claim C6 (amended): a job that fails with a retryable error is retried
by classic Bull's exponential back-off on the configured 2000 ms base —
the k-th retry is delayed by (2^k − 1)·2000 ms (2 s before attempt 2,
6 s before attempt 3) — with at most `attempts = 3` total attempts and no
jitter term. -/
theorem job_backoff_exponential :
    fileProcessingJobOptions.attempts = 3 ∧
    fileProcessingJobOptions.backoff = { type := "exponential", delay := 2000 } ∧
    bullBackoffDelay fileProcessingJobOptions.backoff 1 = 2000 ∧
    bullBackoffDelay fileProcessingJobOptions.backoff 2 = 6000 ∧
    (∀ k : Nat, bullBackoffDelay fileProcessingJobOptions.backoff (k + 1) =
      (2 ^ (k + 1) - 1) * 2000) := by
  refine ⟨rfl, rfl, by decide, by decide, fun k => ?_⟩
  simp [bullBackoffDelay, fileProcessingJobOptions]

/-! ## C5 — job states -/

/-- Claim C5 (counterexample): the `processing_jobs` status enum admits
the row status `'delayed'`, which is not one of the five states the claim
lists, and contains no `'dead'` state at all — so no transition to `dead`
exists in the schema. -/
theorem job_states_counterexample :
    validProcessingJob
      { status := "delayed", priority := 0, progress := 0, attempts := 0, maxAttempts := 3 } = true ∧
    ¬ ("delayed" ∈ claimJobStates) ∧
    ¬ ("dead" ∈ processingJobStatuses) := by
  refine ⟨by decide, by decide, by decide⟩

/-- Claim C5 (amended): every row the `processing_jobs` schema admits has
status among `queued`, `active`, `completed`, `failed`, `delayed` — in
particular never `dead` — and progress within 0..100. -/
theorem job_states_schema (r : ProcessingJobRow) (h : validProcessingJob r = true) :
    r.status ∈ processingJobStatuses ∧ r.status ≠ "dead" ∧ r.progress ≤ 100 := by
  simp only [validProcessingJob, processingJobStatuses, Bool.and_eq_true,
    decide_eq_true_eq, List.contains_eq_any_beq, List.any_cons, List.any_nil,
    Bool.or_eq_true, beq_iff_eq] at h
  obtain ⟨hs, hp⟩ := h
  refine ⟨?_, ?_, hp⟩
  · simp only [processingJobStatuses, List.mem_cons, List.not_mem_nil, or_false]
    tauto
  · rcases hs with h1 | h1 | h1 | h1 | h1 | h1 <;> first | (simp at h1) | simp [h1]

/-- Witness for `job_states_schema` at the migration's default row. -/
theorem job_states_schema_witness :
    validProcessingJob defaultProcessingJob = true ∧
    (defaultProcessingJob.status ∈ processingJobStatuses ∧
     defaultProcessingJob.status ≠ "dead" ∧ defaultProcessingJob.progress ≤ 100) :=
  ⟨by decide, job_states_schema defaultProcessingJob (by decide)⟩

/-! ## C9 — fail-open on limiter-backend failure -/

/-- Claim C9 (confirmed): when the limiter backend is unavailable — the
Redis range query rejects — both the API middleware and the file-upload
middleware let the request proceed (`next()` reached through the `catch`
branch); no request is denied because of a backend failure. -/
theorem limiter_fail_open (r : RedisIOModel) (userId : Option Nat) (now : Int)
    (h : r.zrangeAllowed = Except.error ()) :
    middlewareModel r userId now = MwResult.nextNoHeaders ∧
    fileUploadModel r userId = MwResult.nextNoHeaders := by
  constructor
  · cases htier : tierByName (getUserTierModel userId r) with
    | none => simp [middlewareModel, middlewareBody, htier]
    | some cfg => simp [middlewareModel, middlewareBody, htier, h]
  · cases htier : tierByName (getUserTierModel userId r) with
    | none => simp [fileUploadModel, fileUploadBody, htier]
    | some cfg => simp [fileUploadModel, fileUploadBody, htier, h]

/-- Witness for `limiter_fail_open` at the all-failing oracle. -/
theorem limiter_fail_open_witness :
    failingRedis.zrangeAllowed = Except.error () ∧
    (middlewareModel failingRedis none 0 = MwResult.nextNoHeaders ∧
     fileUploadModel failingRedis none = MwResult.nextNoHeaders) :=
  ⟨rfl, limiter_fail_open failingRedis none 0 rfl⟩

/-! ## C10 — registerWebhook input validation -/

/-- Claim C10 (confirmed): whenever the url fails `isValidUrl` (it does
not parse, or does not start with `http://` / `https://`), or the event
list is empty, `registerWebhook` throws and the webhook map is unchanged
— no subscription is added. -/
theorem register_webhook_validation (urlParses : String → Bool) (st : WebhookState)
    (newId : Nat) (secret url : String) (events : List String)
    (d : String) (userId : Nat)
    (h : isValidUrl urlParses url = false ∨ events = []) :
    (registerWebhook urlParses st newId secret url events d userId).1 = st ∧
    ∃ e, (registerWebhook urlParses st newId secret url events d userId).2 =
      Except.error e := by
  rcases h with hv | hev
  · simp [registerWebhook, hv]
  · by_cases hv : isValidUrl urlParses url = true
    · simp [registerWebhook, hv, hev]
    · simp only [Bool.not_eq_true] at hv
      simp [registerWebhook, hv]

/-- Witness for `register_webhook_validation`: an `ftp://` url is
rejected and the map stays empty. -/
theorem register_webhook_validation_witness :
    (isValidUrl (fun _ => true) "ftp://example.com" = false ∨
      (["processing.completed"] : List String) = []) ∧
    ((registerWebhook (fun _ => true) { webhooks := [] } 0 "s" "ftp://example.com"
        ["processing.completed"] "" 7).1 = { webhooks := [] } ∧
     ∃ e, (registerWebhook (fun _ => true) { webhooks := [] } 0 "s" "ftp://example.com"
        ["processing.completed"] "" 7).2 = Except.error e) :=
  ⟨Or.inl (by decide),
   register_webhook_validation (fun _ => true) { webhooks := [] } 0 "s"
     "ftp://example.com" ["processing.completed"] "" 7 (Or.inl (by decide))⟩

/-! ## C3 — denial payload of the rate limiter -/

/-- Claim C3 (counterexample): a Free-tier identity sending 101 requests
at milliseconds 0..100 is denied on the 101st, and the denial's `reset`
is 900100 = t₁₀₁ + 15 min — the query time plus the window — not
0 + 900000 = ts(1st admission) + 15 min as the claim states. -/
theorem rl_reset_counterexample :
    (middlewareTrace 100 900 [] ((List.range 101).map (fun n => (n : Int)))).getLast? =
      some (RLOutcome.denied 429 "RATE_LIMIT_EXCEEDED"
        { limit := 100, remaining := 0, reset := 900100 } 15) ∧
    ¬ ((900100 : Int) = 0 + 900 * 1000) := by
  refine ⟨by decide, by decide⟩

/-- Claim C3 (amended): every denial of the rate-limit middleware carries
`remaining = 0` and `reset = now + window·1000` — the timestamp of the
denied query plus the window length (not the oldest retained entry plus
the window). -/
theorem rl_denial_fields (limit w : Nat) (s : List Int) (t : Int)
    (d : RLDetails) (ra : Nat)
    (h : (middlewareStep limit w s t).2 =
      RLOutcome.denied 429 "RATE_LIMIT_EXCEEDED" d ra) :
    d.remaining = 0 ∧ d.reset = t + (w : Int) * 1000 := by
  by_cases hal : rlIsAllowed s limit w t = true
  · simp [middlewareStep, hal] at h
  · have hal' : rlIsAllowed s limit w t = false := by
      simpa using hal
    have hc : limit ≤ rlCount s t w := by
      simpa [rlIsAllowed, getRateLimitInfo] using hal'
    simp [middlewareStep, hal'] at h
    obtain ⟨hd, -⟩ := h
    subst hd
    have hx : ((limit : Int) - (rlCount s t w : Int)) ≤ 0 := by omega
    exact ⟨max_eq_left hx, rfl⟩

/-- Witness for `rl_denial_fields` at a concrete denied request. -/
theorem rl_denial_fields_witness :
    (middlewareStep 1 900 [0] 1).2 =
      RLOutcome.denied 429 "RATE_LIMIT_EXCEEDED"
        { limit := 1, remaining := 0, reset := 900001 } 15 ∧
    (({ limit := 1, remaining := 0, reset := 900001 } : RLDetails).remaining = 0 ∧
     ({ limit := 1, remaining := 0, reset := 900001 } : RLDetails).reset =
       1 + (900 : Int) * 1000) :=
  ⟨by decide,
   rl_denial_fields 1 900 [0] 1 { limit := 1, remaining := 0, reset := 900001 } 15
     (by decide)⟩

/-! ## C4 — severity classifier -/

/-- Claim C4 (counterexample): the description `"hello"` matches no
keyword; the code assigns the default severity `'medium'`, while the
claimed table yields `informational` — the code's severity vocabulary is
high/medium/low, not critical/major/minor/informational. -/
theorem severity_classifier_counterexample :
    classifySeverity "hello" = "medium" ∧
    specClassifySeverity "hello" = "informational" ∧
    ¬ (classifySeverity "hello" = specClassifySeverity "hello") := by
  refine ⟨by decide, by decide, by decide⟩

/-- Claim C4 (amended): severity is the first-hit keyword classification
over the code's table — critical/urgent/safety/hazard/danger/emergency/
immediate → `high`; else moderate/attention/concern/issue/problem →
`medium`; else minor/cosmetic/maintenance/suggestion/recommendation →
`low`; a description matching none of these keeps the default `medium`. -/
theorem severity_classifier_table (d : String) :
    classifySeverity d =
      (if ["critical", "urgent", "safety", "hazard", "danger", "emergency",
            "immediate"].any (fun kw => strIncludes (lowerStr d) kw) then "high"
       else if ["moderate", "attention", "concern", "issue",
            "problem"].any (fun kw => strIncludes (lowerStr d) kw) then "medium"
       else if ["minor", "cosmetic", "maintenance", "suggestion",
            "recommendation"].any (fun kw => strIncludes (lowerStr d) kw) then "low"
       else "medium") := by
  by_cases h1 : ["critical", "urgent", "safety", "hazard", "danger", "emergency",
      "immediate"].any (fun kw => strIncludes (lowerStr d) kw) = true
  · simp [classifySeverity, firstKeywordHit, severityKeywords, List.find?, h1]
  · by_cases h2 : ["moderate", "attention", "concern", "issue",
        "problem"].any (fun kw => strIncludes (lowerStr d) kw) = true
    · simp [classifySeverity, firstKeywordHit, severityKeywords, List.find?, h1, h2]
    · by_cases h3 : ["minor", "cosmetic", "maintenance", "suggestion",
          "recommendation"].any (fun kw => strIncludes (lowerStr d) kw) = true
      · simp [classifySeverity, firstKeywordHit, severityKeywords, List.find?, h1, h2, h3]
      · simp [classifySeverity, firstKeywordHit, severityKeywords, List.find?, h1, h2, h3]

/-! ## C1 — the S1 PDF scenario -/

/-- Claim C1 (counterexample): on the canonical S1 raw text the finding
extractor produces NO finding at all — none of the trigger keywords
(finding/issue/problem/defect/deficiency, recommendation/recommend,
repair/fix/replace) occurs in the text, so `"critical electrical hazard
at main panel"` yields no match — hence the result does not contain
exactly one finding with category `electrical` and severity `critical`
(the code's severity vocabulary does not even contain `critical`). -/
theorem s1_findings_counterexample :
    ¬ ((processFileExtract s1Content).findings.length = 1) := by decide

/-- Claim C1 (amended): on the canonical S1 raw text, processing
completes with the property extracted as address `"123 Main St"`, city
`"Anytown"`, state `"CA"`, zip `"90210"` (and inspector `"Jane Smith"`,
license `"NY789012"`), but with an EMPTY findings list — producing zero
findings is still a success for the pipeline. -/
theorem s1_extraction_result :
    processFileExtract s1Content =
      { content := s1Content,
        propertyInfo :=
          { address := some "123 Main St", city := some "Anytown",
            state := some "CA", zipCode := some "90210", propertyType := none,
            squareFootage := none, yearBuilt := none, bedrooms := none,
            bathrooms := none },
        inspectorInfo :=
          { name := some "Jane Smith", license := some "NY789012",
            company := none, phone := none, email := none,
            inspectionDate := none },
        findings := [] } := by decide

/-! ## C8 — transactional persistence -/

/-- Claim C8 (confirmed): `saveProcessedData` is atomic.  Whichever of
the four transactional operations fail, the outcome is either a full
rollback — the store exactly as it was, the error propagated (`none`) —
or exactly the result of the failure-free run, which commits the
property row (when an address was extracted), the inspection row, all
finding rows and the file-status update together. -/
theorem save_processed_data_atomic (fail : TrxFailure) (st : Store)
    (fileId userId : Nat) (pd : ExtractResult) :
    saveProcessedData fail st fileId userId pd = (st, none) ∨
    (saveProcessedData fail st fileId userId pd =
        saveProcessedData noTrxFailure st fileId userId pd ∧
      (saveProcessedData noTrxFailure st fileId userId pd).2.isSome = true) := by
  obtain ⟨f1, f2, f3, f4⟩ := fail
  by_cases hf : 0 < pd.findings.length <;>
    cases haddr : pd.propertyInfo.address <;>
      cases f1 <;> cases f2 <;> cases f3 <;> cases f4 <;>
        simp [saveProcessedData, savePhase2, noTrxFailure, haddr, hf]

/-! ## C7 — sliding-window admission bound -/

/-- Claim C7 (counterexample): the sorted-set member is the decimal
string of the timestamp, so requests sharing a millisecond collapse to
one entry and the counter never sees them: 101 Free-tier API requests all
at t = 5 ms are ALL admitted — 101 admissions inside one 15-minute
window, exceeding the quota of 100. -/
theorem rl_same_ms_counterexample :
    ((rlRun (bucketLimit Tier.free Bucket.api) (bucketWindow Tier.free Bucket.api)
        (List.replicate 101 (5 : Int))).2.filter
        (fun t => decide ((5 : Int) ≤ t) &&
          decide (t ≤ 5 + (bucketWindow Tier.free Bucket.api : Int) * 1000))).length = 101 ∧
    ¬ ((101 : Nat) ≤ bucketLimit Tier.free Bucket.api) := by
  refine ⟨by decide, by decide⟩

theorem mem_zaddEntry_self (s : List Int) (t : Int) : t ∈ zaddEntry s t := by
  by_cases h : t ∈ s <;> simp [zaddEntry, h]

theorem mem_zaddEntry_of_mem {s : List Int} {x : Int} (t : Int) (h : x ∈ s) :
    x ∈ zaddEntry s t := by
  by_cases ht : t ∈ s <;> simp [zaddEntry, ht, h]

theorem listMaxExists : ∀ (l : List Int), l ≠ [] → ∃ m, m ∈ l ∧ ∀ x ∈ l, x ≤ m
  | [], h => absurd rfl h
  | [a], _ => ⟨a, by simp⟩
  | a :: b :: l, _ => by
    obtain ⟨m, hm, hall⟩ := listMaxExists (b :: l) (by simp)
    by_cases hab : a ≤ m
    · refine ⟨m, List.mem_cons_of_mem a hm, ?_⟩
      intro x hx
      rcases List.mem_cons.mp hx with rfl | hx'
      · exact hab
      · exact hall x hx'
    · refine ⟨a, List.mem_cons_self a (b :: l), ?_⟩
      intro x hx
      rcases List.mem_cons.mp hx with rfl | hx'
      · exact le_refl x
      · exact le_trans (hall x hx') (le_of_not_le hab)

/-- The inductive core for claim C7: processing any strictly increasing
request sequence preserves (i) every admitted timestamp still inside the
current window is retained in the sorted set, and (ii) every admitted
timestamp has at most `limit` admissions inside its own trailing
window. -/
theorem rlProcessList_bound (limit w : Nat) (hw : 0 < w) (ts : List Int) :
    ∀ (s adm : List Int) (u : Int),
      (∀ x ∈ adm, x ≤ u) → adm.Nodup →
      (∀ x ∈ adm, u - (w : Int) * 1000 < x → x ∈ s) →
      (∀ x ∈ adm, windowCount w adm x ≤ limit) →
      ts.Pairwise (· < ·) → (∀ t' ∈ ts, u < t') →
      ∀ x ∈ (rlProcessList limit w s adm ts).2,
        windowCount w (rlProcessList limit w s adm ts).2 x ≤ limit := by
  induction ts with
  | nil =>
    intro s adm u _ _ _ hQ _ _ x hx
    simp only [rlProcessList] at hx ⊢
    exact hQ x hx
  | cons t ts ih =>
    intro s adm u hA1 hA2 hInv hQ hp hgt
    have hut : u < t := hgt t (List.mem_cons_self t ts)
    obtain ⟨hpt, hp'⟩ := List.pairwise_cons.mp hp
    by_cases hal : rlIsAllowed s limit w t = true
    · have hstep : rlProcessList limit w s adm (t :: ts) =
          rlProcessList limit w (recordRequest s t w) (adm ++ [t]) ts := by
        simp [rlProcessList, hal]
      rw [hstep]
      have hcount : (adm.filter (fun y =>
          decide (t - (w : Int) * 1000 ≤ y) && decide (y ≤ t))).length < limit := by
        have hsub : (adm.filter (fun y =>
            decide (t - (w : Int) * 1000 ≤ y) && decide (y ≤ t))) ⊆
            (s.filter (fun e => decide (t - (w : Int) * 1000 ≤ e))) := by
          intro y hy
          have hmem := (List.mem_filter.mp hy).1
          have hpy := (List.mem_filter.mp hy).2
          simp only [Bool.and_eq_true, decide_eq_true_eq] at hpy
          have hyin : y ∈ s := by
            apply hInv y hmem
            omega
          refine List.mem_filter.mpr ⟨hyin, ?_⟩
          simp only [decide_eq_true_eq]
          exact hpy.1
        have hnd : (adm.filter (fun y =>
            decide (t - (w : Int) * 1000 ≤ y) && decide (y ≤ t))).Nodup := hA2.filter _
        have hle := (hnd.subperm hsub).length_le
        have hcnt : (s.filter (fun e =>
            decide (t - (w : Int) * 1000 ≤ e))).length < limit := by
          simpa [rlIsAllowed, getRateLimitInfo, rlCount] using hal
        omega
      apply ih
      · intro x hx
        rcases List.mem_append.mp hx with hx' | hx'
        · exact le_of_lt (lt_of_le_of_lt (hA1 x hx') hut)
        · simp only [List.mem_singleton] at hx'
          omega
      · refine hA2.append (List.nodup_singleton t) ?_
        intro x hx hx'
        simp only [List.mem_singleton] at hx'
        subst hx'
        exact absurd (hA1 x hx) (by omega)
      · intro x hx hxw
        rcases List.mem_append.mp hx with hx' | hx'
        · have hxs : x ∈ s := by
            apply hInv x hx'
            omega
          refine List.mem_filter.mpr ⟨mem_zaddEntry_of_mem t hxs, ?_⟩
          simp only [decide_eq_true_eq]
          exact hxw
        · simp only [List.mem_singleton] at hx'
          subst hx'
          refine List.mem_filter.mpr ⟨mem_zaddEntry_self s x, ?_⟩
          simp only [decide_eq_true_eq]
          omega
      · intro x hx
        rcases List.mem_append.mp hx with hx' | hx'
        · have hxu : x ≤ u := hA1 x hx'
          have hxt : ¬ (t ≤ x) := by omega
          have heq : windowCount w (adm ++ [t]) x = windowCount w adm x := by
            have hdf : decide (t ≤ x) = false := decide_eq_false hxt
            have hfalse : (decide (x - (w : Int) * 1000 ≤ t) && decide (t ≤ x)) = false := by
              rw [hdf]
              simp
            simp only [windowCount, List.filter_append, List.length_append,
              List.filter_singleton, hfalse, Bool.cond_false, List.length_nil,
              Nat.add_zero]
          rw [heq]
          exact hQ x hx'
        · simp only [List.mem_singleton] at hx'
          subst hx'
          have heq : windowCount w (adm ++ [x]) x =
              (adm.filter (fun y =>
                decide (x - (w : Int) * 1000 ≤ y) && decide (y ≤ x))).length + 1 := by
            have h1 : decide (x - (w : Int) * 1000 ≤ x) = true := by
              apply decide_eq_true
              omega
            have h2 : decide (x ≤ x) = true := decide_eq_true (le_refl x)
            have htrue : (decide (x - (w : Int) * 1000 ≤ x) && decide (x ≤ x)) = true := by
              rw [h1, h2]
              rfl
            simp only [windowCount, List.filter_append, List.length_append,
              List.filter_singleton, htrue, Bool.cond_true, List.length_singleton]
          rw [heq]
          omega
      · exact hp'
      · exact hpt
    · have hstep : rlProcessList limit w s adm (t :: ts) =
          rlProcessList limit w s adm ts := by
        simp [rlProcessList, hal]
      rw [hstep]
      apply ih s adm t
      · intro x hx
        exact le_of_lt (lt_of_le_of_lt (hA1 x hx) hut)
      · exact hA2
      · intro x hx hxw
        apply hInv x hx
        omega
      · exact hQ
      · exact hp'
      · exact hpt

/-- Claim C7 (amended): provided successive requests carry strictly
increasing timestamps (no two admissions share a millisecond — the
sorted-set member collision exhibited in the counterexample is the one
exception), for every tier and every bucket, any closed time window whose
length equals the bucket's window contains at most the tier's quota of
admitted requests. -/
theorem rl_window_admission_bound (tr : Tier) (b : Bucket) (ts : List Int)
    (hts : ts.Pairwise (· < ·)) (a : Int) :
    ((rlRun (bucketLimit tr b) (bucketWindow tr b) ts).2.filter
        (fun t => decide (a ≤ t) &&
          decide (t ≤ a + (bucketWindow tr b : Int) * 1000))).length
      ≤ bucketLimit tr b := by
  have hw : 0 < bucketWindow tr b := by cases tr <;> cases b <;> decide
  cases ts with
  | nil => simp [rlRun, rlProcessList]
  | cons t0 ts0 =>
    have hgt : ∀ t' ∈ (t0 :: ts0), t0 - 1 < t' := by
      intro t' ht'
      rcases List.mem_cons.mp ht' with rfl | h'
      · omega
      · have := (List.pairwise_cons.mp hts).1 t' h'
        omega
    have hQ := rlProcessList_bound (bucketLimit tr b) (bucketWindow tr b) hw
      (t0 :: ts0) [] [] (t0 - 1) (by simp) (by simp) (by simp) (by simp) hts hgt
    have hrun : rlRun (bucketLimit tr b) (bucketWindow tr b) (t0 :: ts0) =
        rlProcessList (bucketLimit tr b) (bucketWindow tr b) [] [] (t0 :: ts0) := rfl
    rw [hrun]
    by_cases hS : ((rlProcessList (bucketLimit tr b) (bucketWindow tr b) [] []
        (t0 :: ts0)).2.filter
        (fun t => decide (a ≤ t) &&
          decide (t ≤ a + (bucketWindow tr b : Int) * 1000))) = []
    · rw [hS]
      simp
    · obtain ⟨m, hmS, hmax⟩ := listMaxExists _ hS
      have hmA := (List.mem_filter.mp hmS).1
      have hmP := (List.mem_filter.mp hmS).2
      simp only [Bool.and_eq_true, decide_eq_true_eq] at hmP
      have hmono : ∀ x ∈ (rlProcessList (bucketLimit tr b) (bucketWindow tr b) [] []
          (t0 :: ts0)).2,
          (decide (a ≤ x) && decide (x ≤ a + (bucketWindow tr b : Int) * 1000)) = true →
          (decide (m - (bucketWindow tr b : Int) * 1000 ≤ x) && decide (x ≤ m)) = true := by
        intro x hxA hpx
        have hxS : x ∈ ((rlProcessList (bucketLimit tr b) (bucketWindow tr b) [] []
            (t0 :: ts0)).2.filter
            (fun t => decide (a ≤ t) &&
              decide (t ≤ a + (bucketWindow tr b : Int) * 1000))) :=
          List.mem_filter.mpr ⟨hxA, hpx⟩
        have hxm : x ≤ m := hmax x hxS
        simp only [Bool.and_eq_true, decide_eq_true_eq] at hpx ⊢
        constructor
        · omega
        · exact hxm
      have h1 : ((rlProcessList (bucketLimit tr b) (bucketWindow tr b) [] []
          (t0 :: ts0)).2.filter
          (fun t => decide (a ≤ t) &&
            decide (t ≤ a + (bucketWindow tr b : Int) * 1000))).length ≤
          windowCount (bucketWindow tr b)
            (rlProcessList (bucketLimit tr b) (bucketWindow tr b) [] [] (t0 :: ts0)).2 m := by
        simp only [windowCount]
        rw [← List.countP_eq_length_filter, ← List.countP_eq_length_filter]
        exact List.countP_mono_left hmono
      exact le_trans h1 (hQ m hmA)

/-- Witness for `rl_window_admission_bound` at three strictly increasing
Free-tier API requests. -/
theorem rl_window_admission_bound_witness :
    ([0, 1, 2] : List Int).Pairwise (· < ·) ∧
    ((rlRun (bucketLimit Tier.free Bucket.api) (bucketWindow Tier.free Bucket.api)
        [0, 1, 2]).2.filter
        (fun t => decide ((0 : Int) ≤ t) &&
          decide (t ≤ 0 + (bucketWindow Tier.free Bucket.api : Int) * 1000))).length
      ≤ bucketLimit Tier.free Bucket.api :=
  ⟨by decide, rl_window_admission_bound Tier.free Bucket.api [0, 1, 2] (by decide) 0⟩
